import Mathlib

/-!
Verification of the Fluor library (`src/core/InteractiveEmbed.ts`): a shallow
embedding of its two classes, `InteractiveEmbed` and `PaginatedEmbed`, and
proofs of the specified properties.

The embedding models:
  * embed payloads (`MessageEmbed`, `MessageEmbedOptions`) as records of
    optional fields, with the shallow-merge spread `{...a, ...b}` as
    field-wise override;
  * the collect and end callbacks as pure functions returning the new local
    state together with the list of observable effects they issue, in order;
  * the `await` structure of each `send` method as a trace of operations,
    each network call tagged with whether `send` awaits its completion;
  * object identity (needed for the in-place/no-mutation claims) as a store
    of embed values addressed by allocation index.
-/

/-- A footer of a message embed: `{ text, iconURL }` in discord.js. -/
structure MessageEmbedFooter where
  text : Option String
  iconURL : Option String
deriving Repr, DecidableEq, Inhabited

/-- The embed payload fields relevant to this library (discord.js
`MessageEmbed`). Every field is optional, mirroring nullable fields. -/
structure MessageEmbed where
  title : Option String
  description : Option String
  url : Option String
  color : Option Nat
  footer : Option MessageEmbedFooter
deriving Repr, DecidableEq, Inhabited

/-- Plain embed data (discord.js `MessageEmbedOptions`): same shape as
`MessageEmbed`, all fields optional. -/
structure MessageEmbedOptions where
  title : Option String
  description : Option String
  url : Option String
  color : Option Nat
  footer : Option MessageEmbedFooter
deriving Repr, DecidableEq, Inhabited

/-- Serialization `MessageEmbed.toJSON()`: the embed as plain data. -/
def MessageEmbed.toJSON (e : MessageEmbed) : MessageEmbedOptions :=
  { title := e.title, description := e.description, url := e.url,
    color := e.color, footer := e.footer }

/-- `new MessageEmbed(data)` from plain data: copies each field. -/
def MessageEmbed.ofOptions (o : MessageEmbedOptions) : MessageEmbed :=
  { title := o.title, description := o.description, url := o.url,
    color := o.color, footer := o.footer }

/-- The JavaScript object spread `{ ...a, ...b }` on embed data: a shallow
merge in which every field present on `b` overrides the field of `a`. -/
def mergeOptions (a b : MessageEmbedOptions) : MessageEmbedOptions :=
  { title := match b.title with | some v => some v | none => a.title,
    description := match b.description with | some v => some v | none => a.description,
    url := match b.url with | some v => some v | none => a.url,
    color := match b.color with | some v => some v | none => a.color,
    footer := match b.footer with | some v => some v | none => a.footer }

/-- `embed.setFooter(text)` (no icon argument): replaces the footer with
`{ text, iconURL: undefined }`. -/
def MessageEmbed.setFooter (e : MessageEmbed) (text : String) : MessageEmbed :=
  { e with footer := some { text := some text, iconURL := none } }

/-- An observable effect issued by a callback, in issue order. -/
inductive Effect where
  /-- `reaction.users.remove(user)`: remove one user's reaction. -/
  | removeUserReaction (userId : String)
  /-- `message.reactions.removeAll()`. -/
  | removeAllReactions
  /-- `this.emit(name, reaction, user)`: an emitter event whose payload is
  the reaction (identified by its emoji name) and the user. -/
  | emitEvent (name : String) (reactionEmoji : String) (userId : String)
  /-- `message.edit(embed)`. -/
  | editMessage (embed : MessageEmbed)
deriving Repr, DecidableEq

/-- Whether an effect is an emitter event. -/
def Effect.isEmit : Effect → Bool
  | .emitEvent _ _ _ => true
  | _ => false

/-- Whether an effect is a message edit. -/
def Effect.isEdit : Effect → Bool
  | .editMessage _ => true
  | _ => false

/-- Collector options `{ idle: 60000, time: 180000 }` shared verbatim by the
two `createReactionCollector` calls. -/
structure CollectorOptions where
  idle : Nat
  time : Nat
deriving Repr, DecidableEq

/-- The collector filter `(_reaction, u) => u.id === user.id`: it looks only
at the reacting user's id, never at the reaction. -/
def collectorFilter (authorizedId : String) (_reactionEmoji : String)
    (userId : String) : Bool :=
  userId == authorizedId

/-- One operation of a `send` method, in program order; a network call is
tagged with whether `send` awaits its completion before continuing. -/
inductive SendOp where
  /-- `await channel.send(embed)`. -/
  | sendMessage (awaited : Bool)
  /-- `message.react(emoji)`; `awaited` records whether the `send` method
  itself suspends on this call before moving on. -/
  | reactCall (emoji : String) (awaited : Bool)
  /-- `message.createReactionCollector(...)` plus the listener registrations. -/
  | armCollector
deriving Repr, DecidableEq

/-- Whether a send operation is a `react` call. -/
def SendOp.isReact : SendOp → Bool
  | .reactCall _ _ => true
  | _ => false

/-- Whether a send operation is awaited by `send` itself. -/
def SendOp.isAwaited : SendOp → Bool
  | .sendMessage a => a
  | .reactCall _ a => a
  | .armCollector => true

namespace InteractiveEmbed

/-- The options passed at `message.createReactionCollector((_reaction, u) =>
u.id === user.id, { idle: 60000, time: 180000 })` in `InteractiveEmbed.send`. -/
def collectorOptions : CollectorOptions := { idle := 60000, time := 180000 }

/-- The `collect` callback of `InteractiveEmbed.send`: removes the reacting
user's reaction, then emits an event named after the emoji when the emoji is
configured. Returns the effects in issue order. -/
def onCollect (emojis : List String) (emojiName userId : String) :
    List Effect :=
  Effect.removeUserReaction userId ::
    (if emojis.contains emojiName then
      [Effect.emitEvent emojiName emojiName userId]
    else [])

/-- The `end` callback of `InteractiveEmbed.send`: removes all reactions; if a
kill-patch was supplied, rebuilds `this.embed` from the merge of the current
embed's serialized form with the patch and edits the message to it. Returns
the new value of `this.embed` and the effects in issue order. -/
def onEnd (embed : MessageEmbed) (killed : Option MessageEmbedOptions) :
    MessageEmbed × List Effect :=
  match killed with
  | some k =>
      let merged := MessageEmbed.ofOptions (mergeOptions embed.toJSON k)
      (merged, [Effect.removeAllReactions, Effect.editMessage merged])
  | none => (embed, [Effect.removeAllReactions])

/-- The operation trace of `InteractiveEmbed.send`: `await channel.send`,
then `this.emojis.forEach(async emoji => await message.react(emoji))` — the
`forEach` returns without waiting for any of the async arrows, so no react
call is awaited by `send` — then the collector is created and armed. -/
def sendTrace (emojis : List String) : List SendOp :=
  SendOp.sendMessage true ::
    (emojis.map (fun e => SendOp.reactCall e false) ++ [SendOp.armCollector])

end InteractiveEmbed

namespace PaginatedEmbed

/-- The page label `` `Page ${i + 1}/${n}` `` for the 0-based position `i`
in a sequence of `n` embeds. -/
def pageLabel (i n : Nat) : String :=
  "Page " ++ toString (i + 1) ++ "/" ++ toString n

/-- The per-embed footer annotation of the `PaginatedEmbed` constructor:
an existing footer's text gets `" • Page i/n"` appended (missing text treated
as `''`); a missing footer is created via `setFooter` with text `"Page i/n"`. -/
def addPageFooter (n i : Nat) (e : MessageEmbed) : MessageEmbed :=
  match e.footer with
  | some f =>
      { e with footer := some { f with
          text := some ((f.text.getD "") ++ " • " ++ pageLabel i n) } }
  | none => e.setFooter (pageLabel i n)

/-- `embeds.map((embed, i) => ...)` with an explicit running index, mirroring
the index argument JavaScript's `map` supplies. -/
def mapWithIndex (f : Nat → MessageEmbed → MessageEmbed) :
    Nat → List MessageEmbed → List MessageEmbed
  | _, [] => []
  | i, e :: rest => f i e :: mapWithIndex f (i + 1) rest

/-- The state a `PaginatedEmbed` instance holds after construction. -/
structure State where
  embeds : List MessageEmbed
  killed : Option MessageEmbedOptions
deriving Repr, DecidableEq

/-- The `PaginatedEmbed` constructor: throws when the embed array is empty,
otherwise annotates every embed's footer with its page number. -/
def construct (embeds : List MessageEmbed)
    (killed : Option MessageEmbedOptions) : Except String State :=
  if embeds.length = 0 then
    .error "At least 1 MessageEmbed must be provided in a PaginatedEmbed."
  else
    .ok { embeds := mapWithIndex (addPageFooter embeds.length) 0 embeds,
          killed := killed }

/-- The options passed at `message.createReactionCollector((_reaction, u) =>
u.id === user.id, { idle: 60000, time: 180000 })` in `PaginatedEmbed.send`. -/
def collectorOptions : CollectorOptions := { idle := 60000, time := 180000 }

/-- The index update of the `collect` callback: `index` is a JavaScript
number (modelled as `Int`), `max = embeds.length - 1`. A left arrow moves to
`max` when `index - 1 < 0` and to `index - 1` otherwise; a right arrow moves
to `0` when `index + 1 > max` and to `index + 1` otherwise; any other emoji
leaves the index unchanged. -/
def pageTransition (max index : Int) (emoji : String) : Int :=
  if emoji = "⬅" then (if index - 1 < 0 then max else index - 1)
  else if emoji = "➡" then (if index + 1 > max then 0 else index + 1)
  else index

/-- The `collect` callback of `PaginatedEmbed.send`: removes the authorized
user's reaction, updates the index per `pageTransition`, then (always) edits
the message to `this.embeds[index]`. Returns the new index and the effects in
issue order. -/
def onCollect (embeds : List MessageEmbed) (index : Int)
    (emoji authorizedId : String) : Int × List Effect :=
  let newIndex := pageTransition (embeds.length - 1) index emoji
  (newIndex,
    [Effect.removeUserReaction authorizedId,
     Effect.editMessage (embeds.getD newIndex.toNat default)])

/-- The `end` callback of `PaginatedEmbed.send`: removes all reactions; if a
kill-patch was supplied, edits the message to the merge of
`this.embeds[index].toJSON()` with the patch. -/
def onEnd (embeds : List MessageEmbed) (index : Int)
    (killed : Option MessageEmbedOptions) : List Effect :=
  match killed with
  | some k =>
      [Effect.removeAllReactions,
       Effect.editMessage (MessageEmbed.ofOptions
         (mergeOptions (embeds.getD index.toNat default).toJSON k))]
  | none => [Effect.removeAllReactions]

/-- The index reached from the initial `let index = 0` after a sequence of
qualifying reactions, each processed by the `collect` callback. -/
def runIndex (max : Int) (emojis : List String) : Int :=
  emojis.foldl (fun idx e => pageTransition max idx e) 0

/-- The operation trace of `PaginatedEmbed.send`: `await channel.send`, then
`await message.react('⬅')` and `await message.react('➡')` — both explicitly
awaited — then the collector is created and armed. -/
def sendTrace : List SendOp :=
  [SendOp.sendMessage true, SendOp.reactCall "⬅" true,
   SendOp.reactCall "➡" true, SendOp.armCollector]

end PaginatedEmbed

/-! ### Sample concrete embeds, used by the witness theorems -/

/-- A concrete embed without a footer. -/
def sampleEmbedA : MessageEmbed :=
  { title := some "A", description := none, url := none, color := none,
    footer := none }

/-- A concrete embed with a footer whose text is present. -/
def sampleEmbedB : MessageEmbed :=
  { title := some "B", description := some "second", url := none,
    color := some 255,
    footer := some { text := some "by hicka", iconURL := none } }

/-- A concrete embed with a footer but no footer text. -/
def sampleEmbedC : MessageEmbed :=
  { title := none, description := none, url := some "https://example.com",
    color := none,
    footer := some { text := none, iconURL := some "icon.png" } }

/-- A concrete kill-patch overriding the title only. -/
def sampleKill : MessageEmbedOptions :=
  { title := some "Expired", description := none, url := none, color := none,
    footer := none }

/-! ### Helper lemmas on the pagination index -/

/-- `pageTransition` keeps the index inside `[0, max]`. -/
lemma pageTransition_bounds (max idx : Int) (e : String) (hmax : 0 ≤ max)
    (h0 : 0 ≤ idx) (h1 : idx ≤ max) :
    0 ≤ PaginatedEmbed.pageTransition max idx e ∧
      PaginatedEmbed.pageTransition max idx e ≤ max := by
  unfold PaginatedEmbed.pageTransition
  split_ifs <;> omega

/-- Folding `pageTransition` over any emoji list keeps the index inside
`[0, max]`. -/
lemma foldl_pageTransition_bounds (max : Int) (hmax : 0 ≤ max) :
    ∀ (es : List String) (idx : Int), 0 ≤ idx → idx ≤ max →
      0 ≤ es.foldl (fun i e => PaginatedEmbed.pageTransition max i e) idx ∧
        es.foldl (fun i e => PaginatedEmbed.pageTransition max i e) idx ≤ max := by
  intro es
  induction es with
  | nil => intro idx h0 h1; exact ⟨h0, h1⟩
  | cons e rest ih =>
      intro idx h0 h1
      have hb := pageTransition_bounds max idx e hmax h0 h1
      exact ih _ hb.1 hb.2

/-! ### Claims -/

/-- Claim C1: for a `PaginatedEmbed` over `n` embeds with current index `i`,
a qualifying left-arrow reaction sets the index to `n - 1` when `i = 0` and
to `i - 1` otherwise; a qualifying right-arrow reaction sets the index to `0`
when `i = n - 1` and to `i + 1` otherwise; after each such transition the
effects are the user-reaction removal followed by an edit of the message to
the embed at the new index (which is in bounds). -/
theorem fluor_C1_arrow_transitions (embeds : List MessageEmbed) (i : Int)
    (uid : String) (hn : 1 ≤ embeds.length) (h0 : 0 ≤ i)
    (hi : i ≤ (embeds.length : Int) - 1) :
    ((PaginatedEmbed.onCollect embeds i "⬅" uid).1 =
        (if i = 0 then (embeds.length : Int) - 1 else i - 1) ∧
      (PaginatedEmbed.onCollect embeds i "⬅" uid).1.toNat < embeds.length ∧
      (PaginatedEmbed.onCollect embeds i "⬅" uid).2 =
        [Effect.removeUserReaction uid,
         Effect.editMessage (embeds.getD
           (PaginatedEmbed.onCollect embeds i "⬅" uid).1.toNat default)]) ∧
    ((PaginatedEmbed.onCollect embeds i "➡" uid).1 =
        (if i = (embeds.length : Int) - 1 then 0 else i + 1) ∧
      (PaginatedEmbed.onCollect embeds i "➡" uid).1.toNat < embeds.length ∧
      (PaginatedEmbed.onCollect embeds i "➡" uid).2 =
        [Effect.removeUserReaction uid,
         Effect.editMessage (embeds.getD
           (PaginatedEmbed.onCollect embeds i "➡" uid).1.toNat default)]) := by
  have hleft : PaginatedEmbed.pageTransition ((embeds.length : Int) - 1) i "⬅" =
      (if i = 0 then (embeds.length : Int) - 1 else i - 1) := by
    unfold PaginatedEmbed.pageTransition
    simp only [if_pos rfl]
    split_ifs <;> omega
  have hright : PaginatedEmbed.pageTransition ((embeds.length : Int) - 1) i "➡" =
      (if i = (embeds.length : Int) - 1 then 0 else i + 1) := by
    unfold PaginatedEmbed.pageTransition
    have hne : ("➡" : String) ≠ "⬅" := by decide
    simp only [if_neg hne, if_pos rfl]
    split_ifs <;> omega
  refine ⟨⟨?_, ?_, ?_⟩, ⟨?_, ?_, ?_⟩⟩
  · simpa [PaginatedEmbed.onCollect] using hleft
  · simp only [PaginatedEmbed.onCollect, hleft]
    split_ifs <;> omega
  · simp [PaginatedEmbed.onCollect]
  · simpa [PaginatedEmbed.onCollect] using hright
  · simp only [PaginatedEmbed.onCollect, hright]
    split_ifs <;> omega
  · simp [PaginatedEmbed.onCollect]

/-- Witness for C1: three embeds, current index 0; the left arrow wraps to
index 2 and the right arrow moves to index 1. -/
theorem fluor_C1_arrow_transitions_witness :
    1 ≤ ([sampleEmbedA, sampleEmbedB, sampleEmbedC] : List MessageEmbed).length ∧
    (0 : Int) ≤ 0 ∧
    (0 : Int) ≤ (([sampleEmbedA, sampleEmbedB, sampleEmbedC] :
      List MessageEmbed).length : Int) - 1 ∧
    (((PaginatedEmbed.onCollect [sampleEmbedA, sampleEmbedB, sampleEmbedC]
        0 "⬅" "u").1 =
        (if (0 : Int) = 0 then (([sampleEmbedA, sampleEmbedB, sampleEmbedC] :
          List MessageEmbed).length : Int) - 1 else 0 - 1) ∧
      (PaginatedEmbed.onCollect [sampleEmbedA, sampleEmbedB, sampleEmbedC]
        0 "⬅" "u").1.toNat <
        ([sampleEmbedA, sampleEmbedB, sampleEmbedC] : List MessageEmbed).length ∧
      (PaginatedEmbed.onCollect [sampleEmbedA, sampleEmbedB, sampleEmbedC]
        0 "⬅" "u").2 =
        [Effect.removeUserReaction "u",
         Effect.editMessage ([sampleEmbedA, sampleEmbedB, sampleEmbedC].getD
           (PaginatedEmbed.onCollect [sampleEmbedA, sampleEmbedB, sampleEmbedC]
             0 "⬅" "u").1.toNat default)]) ∧
    ((PaginatedEmbed.onCollect [sampleEmbedA, sampleEmbedB, sampleEmbedC]
        0 "➡" "u").1 =
        (if (0 : Int) = (([sampleEmbedA, sampleEmbedB, sampleEmbedC] :
          List MessageEmbed).length : Int) - 1 then 0 else 0 + 1) ∧
      (PaginatedEmbed.onCollect [sampleEmbedA, sampleEmbedB, sampleEmbedC]
        0 "➡" "u").1.toNat <
        ([sampleEmbedA, sampleEmbedB, sampleEmbedC] : List MessageEmbed).length ∧
      (PaginatedEmbed.onCollect [sampleEmbedA, sampleEmbedB, sampleEmbedC]
        0 "➡" "u").2 =
        [Effect.removeUserReaction "u",
         Effect.editMessage ([sampleEmbedA, sampleEmbedB, sampleEmbedC].getD
           (PaginatedEmbed.onCollect [sampleEmbedA, sampleEmbedB, sampleEmbedC]
             0 "➡" "u").1.toNat default)])) :=
  ⟨by decide, by decide, by decide,
    fluor_C1_arrow_transitions [sampleEmbedA, sampleEmbedB, sampleEmbedC] 0 "u"
      (by decide) (by decide) (by decide)⟩

/-- Claim C9: for a `PaginatedEmbed` over `n ≥ 1` embeds, the index is `0`
right after `send` (before any reaction), and after every sequence of
qualifying reactions processed by the collect callback it stays in
`[0, n - 1]`. -/
theorem fluor_C9_index_invariant (embeds : List MessageEmbed)
    (hn : 1 ≤ embeds.length) :
    PaginatedEmbed.runIndex ((embeds.length : Int) - 1) [] = 0 ∧
    ∀ es : List String,
      0 ≤ PaginatedEmbed.runIndex ((embeds.length : Int) - 1) es ∧
        PaginatedEmbed.runIndex ((embeds.length : Int) - 1) es ≤
          (embeds.length : Int) - 1 := by
  refine ⟨rfl, fun es => ?_⟩
  have hmax : (0 : Int) ≤ (embeds.length : Int) - 1 := by
    have := hn; omega
  exact foldl_pageTransition_bounds _ hmax es 0 le_rfl hmax

/-- Witness for C9: a two-embed paginator; after the reaction sequence
right, right, left, other, right the index is still in `[0, 1]`. -/
theorem fluor_C9_index_invariant_witness :
    1 ≤ ([sampleEmbedA, sampleEmbedB] : List MessageEmbed).length ∧
    (0 ≤ PaginatedEmbed.runIndex
        ((([sampleEmbedA, sampleEmbedB] : List MessageEmbed).length : Int) - 1)
        ["➡", "➡", "⬅", "🙂", "➡"] ∧
      PaginatedEmbed.runIndex
        ((([sampleEmbedA, sampleEmbedB] : List MessageEmbed).length : Int) - 1)
        ["➡", "➡", "⬅", "🙂", "➡"] ≤
        (([sampleEmbedA, sampleEmbedB] : List MessageEmbed).length : Int) - 1) :=
  ⟨by decide,
    (fluor_C9_index_invariant [sampleEmbedA, sampleEmbedB] (by decide)).2
      ["➡", "➡", "⬅", "🙂", "➡"]⟩

/-- The spec's description of the kill-patch merge, written from its words:
`m` is the shallow merge of `a` with patch `b` when, field by field, `m`
takes `b`'s field whenever the patch supplies it and `a`'s field otherwise. -/
def isShallowMergeOf (m a b : MessageEmbedOptions) : Prop :=
  m.title = (if b.title.isSome then b.title else a.title) ∧
  m.description = (if b.description.isSome then b.description else a.description) ∧
  m.url = (if b.url.isSome then b.url else a.url) ∧
  m.color = (if b.color.isSome then b.color else a.color) ∧
  m.footer = (if b.footer.isSome then b.footer else a.footer)

/-- Claim C2: for an `InteractiveEmbed` with emoji set `E`, every qualifying
reaction first has the reacting user's reaction removed; then, when the emoji
`e` is in `E`, exactly one event named `e` with the reaction and user as
payload is emitted, and when `e` is not in `E` nothing else happens. -/
theorem fluor_C2_emit_iff_configured (E : List String) (e u : String) :
    (InteractiveEmbed.onCollect E e u).head? =
      some (Effect.removeUserReaction u) ∧
    (InteractiveEmbed.onCollect E e u).countP Effect.isEmit =
      (if E.contains e then 1 else 0) ∧
    (InteractiveEmbed.onCollect E e u).tail =
      (if E.contains e then [Effect.emitEvent e e u] else []) := by
  by_cases h : e ∈ E <;>
    simp [InteractiveEmbed.onCollect, h, Effect.isEmit,
      List.countP_cons, List.countP_nil]

/-- Claim C3: on collector end, both classes first remove all reactions; with
a kill-patch the one further effect is an edit to the merge of the currently
shown embed's serialized form with the patch (patch fields override, per
`isShallowMergeOf`); without a kill-patch no edit happens, so the content is
untouched. `InteractiveEmbed` also stores the merged embed back in
`this.embed`. -/
theorem fluor_C3_end_killpatch (embed : MessageEmbed)
    (embeds : List MessageEmbed) (idx : Int) (k : MessageEmbedOptions) :
    InteractiveEmbed.onEnd embed none = (embed, [Effect.removeAllReactions]) ∧
    InteractiveEmbed.onEnd embed (some k) =
      (MessageEmbed.ofOptions (mergeOptions embed.toJSON k),
       [Effect.removeAllReactions,
        Effect.editMessage (MessageEmbed.ofOptions (mergeOptions embed.toJSON k))]) ∧
    PaginatedEmbed.onEnd embeds idx none = [Effect.removeAllReactions] ∧
    PaginatedEmbed.onEnd embeds idx (some k) =
      [Effect.removeAllReactions,
       Effect.editMessage (MessageEmbed.ofOptions
         (mergeOptions (embeds.getD idx.toNat default).toJSON k))] ∧
    ∀ a b : MessageEmbedOptions, isShallowMergeOf (mergeOptions a b) a b := by
  refine ⟨rfl, rfl, rfl, rfl, fun a b => ?_⟩
  refine ⟨?_, ?_, ?_, ?_, ?_⟩ <;>
    · simp only [mergeOptions]
      cases b.title <;> cases b.description <;> cases b.url <;>
        cases b.color <;> cases b.footer <;> simp

/-- Claim C5: both `send` methods configure the collector with a 60-second
idle timeout and a 180-second absolute timeout, and the filter accepts a
reaction exactly when the reacting user's id equals the authorized user's id,
independently of the reaction's emoji. -/
theorem fluor_C5_collector_config :
    InteractiveEmbed.collectorOptions.idle = 60 * 1000 ∧
    InteractiveEmbed.collectorOptions.time = 180 * 1000 ∧
    PaginatedEmbed.collectorOptions.idle = 60 * 1000 ∧
    PaginatedEmbed.collectorOptions.time = 180 * 1000 ∧
    ∀ auth emojiOne emojiTwo uid : String,
      collectorFilter auth emojiOne uid = collectorFilter auth emojiTwo uid ∧
      (collectorFilter auth emojiOne uid = true ↔ uid = auth) := by
  refine ⟨rfl, rfl, rfl, rfl, fun auth emojiOne emojiTwo uid => ⟨rfl, ?_⟩⟩
  simp [collectorFilter]

/-- `mapWithIndex` preserves length. -/
lemma mapWithIndex_length (f : Nat → MessageEmbed → MessageEmbed) :
    ∀ (i : Nat) (l : List MessageEmbed),
      (PaginatedEmbed.mapWithIndex f i l).length = l.length := by
  intro i l
  induction l generalizing i with
  | nil => rfl
  | cons e rest ih => simp [PaginatedEmbed.mapWithIndex, ih]

/-- Element `j` of `mapWithIndex f i l` is `f (i + j)` of element `j` of `l`. -/
lemma mapWithIndex_getD (f : Nat → MessageEmbed → MessageEmbed) :
    ∀ (l : List MessageEmbed) (i j : Nat), j < l.length →
      (PaginatedEmbed.mapWithIndex f i l).getD j default =
        f (i + j) (l.getD j default) := by
  intro l
  induction l with
  | nil => intro i j h; simp at h
  | cons e rest ih =>
      intro i j h
      cases j with
      | zero => simp [PaginatedEmbed.mapWithIndex]
      | succ j =>
          have hj : j < rest.length := by simpa using h
          have := ih (i + 1) j hj
          simpa [PaginatedEmbed.mapWithIndex, Nat.add_assoc, Nat.add_comm 1 j]
            using this

/-- Claim C4: constructing a `PaginatedEmbed` with an empty embed array
throws the validation error; with `n ≥ 1` embeds it succeeds, the instance
holds `n` embeds, and the `i`-th embed's footer text ends with
`"Page (i+1)/n"` (0-based `i`). -/
theorem fluor_C4_constructor_validation (embeds : List MessageEmbed)
    (k : Option MessageEmbedOptions) :
    (embeds.length = 0 →
      PaginatedEmbed.construct embeds k = .error
        "At least 1 MessageEmbed must be provided in a PaginatedEmbed.") ∧
    (1 ≤ embeds.length →
      ∃ st : PaginatedEmbed.State,
        PaginatedEmbed.construct embeds k = .ok st ∧
        st.embeds.length = embeds.length ∧
        ∀ i : Nat, i < st.embeds.length →
          ∃ (f : MessageEmbedFooter) (p : String),
            (st.embeds.getD i default).footer = some f ∧
            f.text = some (p ++ PaginatedEmbed.pageLabel i embeds.length)) := by
  constructor
  · intro h
    simp [PaginatedEmbed.construct, h]
  · intro hn
    have hne : ¬ embeds.length = 0 := by omega
    refine ⟨⟨PaginatedEmbed.mapWithIndex
      (PaginatedEmbed.addPageFooter embeds.length) 0 embeds, k⟩, ?_, ?_, ?_⟩
    · simp [PaginatedEmbed.construct, hne]
    · exact mapWithIndex_length _ 0 embeds
    · intro i hi
      rw [mapWithIndex_length] at hi
      rw [mapWithIndex_getD _ embeds 0 i hi, Nat.zero_add]
      cases hf : (embeds.getD i default).footer with
      | some f0 =>
          refine ⟨⟨some ((f0.text.getD "") ++ " • " ++
            PaginatedEmbed.pageLabel i embeds.length), f0.iconURL⟩,
            (f0.text.getD "") ++ " • ", ?_, rfl⟩
          simp only [PaginatedEmbed.addPageFooter, hf]
      | none =>
          refine ⟨⟨some (PaginatedEmbed.pageLabel i embeds.length), none⟩,
            "", ?_, ?_⟩
          · simp only [PaginatedEmbed.addPageFooter, MessageEmbed.setFooter, hf]
          · simp

/-- Witness for C4: the empty array yields the validation error; a two-embed
array yields an instance whose footers carry the page labels. -/
theorem fluor_C4_constructor_validation_witness :
    ([] : List MessageEmbed).length = 0 ∧
    PaginatedEmbed.construct [] none = .error
      "At least 1 MessageEmbed must be provided in a PaginatedEmbed." ∧
    1 ≤ ([sampleEmbedA, sampleEmbedB] : List MessageEmbed).length ∧
    (∃ st : PaginatedEmbed.State,
      PaginatedEmbed.construct [sampleEmbedA, sampleEmbedB] none = .ok st ∧
      st.embeds.length =
        ([sampleEmbedA, sampleEmbedB] : List MessageEmbed).length ∧
      ∀ i : Nat, i < st.embeds.length →
        ∃ (f : MessageEmbedFooter) (p : String),
          (st.embeds.getD i default).footer = some f ∧
          f.text = some (p ++ PaginatedEmbed.pageLabel i
            ([sampleEmbedA, sampleEmbedB] : List MessageEmbed).length)) :=
  ⟨rfl, (fluor_C4_constructor_validation [] none).1 rfl, by decide,
    (fluor_C4_constructor_validation [sampleEmbedA, sampleEmbedB] none).2
      (by decide)⟩

/-- Counterexample for C6: on an embed without a footer (position 0 of 1) the
constructor creates the footer text `"Page 1/1"`, which does not carry the
claimed suffix `" • Page 1/1"` — no prefix `p` makes `"Page 1/1"` equal to
`p ++ " • Page 1/1"`. -/
theorem fluor_C6_counterexample :
    " • " ++ PaginatedEmbed.pageLabel 0 1 = " • Page 1/1" ∧
    (PaginatedEmbed.addPageFooter 1 0 sampleEmbedA).footer =
      some { text := some "Page 1/1", iconURL := none } ∧
    ¬ ∃ p : String, "Page 1/1" = p ++ " • Page 1/1" := by
  refine ⟨rfl, rfl, ?_⟩
  rintro ⟨p, hp⟩
  have hlen := congrArg String.length hp
  rw [String.length_append] at hlen
  have h8 : ("Page 1/1" : String).length = 8 := rfl
  have h11 : (" • Page 1/1" : String).length = 11 := rfl
  omega

/-- Claim C6 as amended: at position `i` (0-based) of `n` embeds, an embed
with an existing footer has `" • Page (i+1)/n"` appended to its footer text
(missing text treated as empty); an embed without a footer gets a new footer
whose text is exactly `"Page (i+1)/n"`, without the `" • "` separator. -/
theorem fluor_C6_amended_footer_pagelabel (e : MessageEmbed) (i n : Nat) :
    (∀ f : MessageEmbedFooter, e.footer = some f →
      (PaginatedEmbed.addPageFooter n i e).footer = some { f with
        text := some ((f.text.getD "") ++ " • " ++
          PaginatedEmbed.pageLabel i n) }) ∧
    (e.footer = none →
      (PaginatedEmbed.addPageFooter n i e).footer =
        some { text := some (PaginatedEmbed.pageLabel i n), iconURL := none }) := by
  constructor
  · intro f hf
    simp only [PaginatedEmbed.addPageFooter, hf]
  · intro hf
    simp only [PaginatedEmbed.addPageFooter, MessageEmbed.setFooter, hf]

/-- Witness for the amended C6: an embed with footer text `"by hicka"` gets
`" • Page 1/2"` appended; an embed without a footer gets the bare
`"Page 2/2"`. -/
theorem fluor_C6_amended_footer_pagelabel_witness :
    sampleEmbedB.footer = some { text := some "by hicka", iconURL := none } ∧
    (PaginatedEmbed.addPageFooter 2 0 sampleEmbedB).footer =
      some { text := some (("by hicka" : String) ++ " • " ++
        PaginatedEmbed.pageLabel 0 2), iconURL := none } ∧
    sampleEmbedA.footer = none ∧
    (PaginatedEmbed.addPageFooter 2 1 sampleEmbedA).footer =
      some { text := some (PaginatedEmbed.pageLabel 1 2), iconURL := none } :=
  ⟨rfl,
    (fluor_C6_amended_footer_pagelabel sampleEmbedB 0 2).1
      { text := some "by hicka", iconURL := none } rfl,
    rfl,
    (fluor_C6_amended_footer_pagelabel sampleEmbedA 1 2).2 rfl⟩

/-- Counterexample for C7: in a one-page paginator at index 0, a qualifying
`"🙂"` reaction (neither arrow) leaves the index at 0 but its effect list is
not just the reaction removal — the callback unconditionally issues a
`message.edit` to the embed at the unchanged index. -/
theorem fluor_C7_counterexample :
    ("🙂" : String) ≠ "⬅" ∧ ("🙂" : String) ≠ "➡" ∧
    (PaginatedEmbed.onCollect [sampleEmbedA] 0 "🙂" "u").1 = 0 ∧
    (PaginatedEmbed.onCollect [sampleEmbedA] 0 "🙂" "u").2 =
      [Effect.removeUserReaction "u", Effect.editMessage sampleEmbedA] ∧
    ¬ (PaginatedEmbed.onCollect [sampleEmbedA] 0 "🙂" "u").2 =
      [Effect.removeUserReaction "u"] ∧
    (PaginatedEmbed.onCollect [sampleEmbedA] 0 "🙂" "u").2.countP
      Effect.isEdit = 1 := by
  decide

/-- Claim C7 as amended: a qualifying reaction whose emoji is neither arrow
leaves the index unchanged and emits no event; its effects are the user's
reaction removal followed by a redundant `message.edit` showing the embed at
the unchanged index, and nothing else. -/
theorem fluor_C7_amended_other_emoji (embeds : List MessageEmbed)
    (index : Int) (emoji uid : String) (hL : emoji ≠ "⬅") (hR : emoji ≠ "➡") :
    (PaginatedEmbed.onCollect embeds index emoji uid).1 = index ∧
    (PaginatedEmbed.onCollect embeds index emoji uid).2 =
      [Effect.removeUserReaction uid,
       Effect.editMessage (embeds.getD index.toNat default)] ∧
    (PaginatedEmbed.onCollect embeds index emoji uid).2.countP
      Effect.isEmit = 0 := by
  have ht : PaginatedEmbed.pageTransition ((embeds.length : Int) - 1)
      index emoji = index := by
    unfold PaginatedEmbed.pageTransition
    rw [if_neg hL, if_neg hR]
  refine ⟨?_, ?_, ?_⟩
  · simpa [PaginatedEmbed.onCollect] using ht
  · simp [PaginatedEmbed.onCollect, ht]
  · simp [PaginatedEmbed.onCollect, List.countP_cons, Effect.isEmit]

/-- Witness for the amended C7: a `"🙂"` reaction on a two-page paginator at
index 1 keeps the index at 1 and edits the message to the second embed. -/
theorem fluor_C7_amended_other_emoji_witness :
    ("🙂" : String) ≠ "⬅" ∧ ("🙂" : String) ≠ "➡" ∧
    ((PaginatedEmbed.onCollect [sampleEmbedA, sampleEmbedB] 1 "🙂" "u").1 = 1 ∧
      (PaginatedEmbed.onCollect [sampleEmbedA, sampleEmbedB] 1 "🙂" "u").2 =
        [Effect.removeUserReaction "u",
         Effect.editMessage ([sampleEmbedA, sampleEmbedB].getD
           (1 : Int).toNat default)] ∧
      (PaginatedEmbed.onCollect [sampleEmbedA, sampleEmbedB] 1 "🙂" "u").2.countP
        Effect.isEmit = 0) :=
  ⟨by decide, by decide,
    fluor_C7_amended_other_emoji [sampleEmbedA, sampleEmbedB] 1 "🙂" "u"
      (by decide) (by decide)⟩

/-- Counterexample for C8: `PaginatedEmbed.send` awaits both initial react
calls — its trace contains `reactCall "⬅"` with the awaited flag set, so the
"no react call is awaited" reading is false for it. -/
theorem fluor_C8_counterexample :
    SendOp.reactCall "⬅" true ∈ PaginatedEmbed.sendTrace ∧
    PaginatedEmbed.sendTrace.all
      (fun op => !op.isReact || !op.isAwaited) = false := by
  decide

/-- Claim C8 as amended: `InteractiveEmbed.send` issues its react calls
fire-and-forget (none awaited before the collector is armed), but
`PaginatedEmbed.send` awaits each of its two react calls; in both traces the
collector is armed last. -/
theorem fluor_C8_amended_await_structure (emojis : List String) :
    (InteractiveEmbed.sendTrace emojis).all
      (fun op => !op.isReact || !op.isAwaited) = true ∧
    PaginatedEmbed.sendTrace.all
      (fun op => !op.isReact || op.isAwaited) = true ∧
    (InteractiveEmbed.sendTrace emojis).getLast? = some SendOp.armCollector ∧
    PaginatedEmbed.sendTrace.getLast? = some SendOp.armCollector := by
  refine ⟨?_, by decide, ?_, by decide⟩
  · simp [InteractiveEmbed.sendTrace, SendOp.isReact, SendOp.isAwaited,
      List.all_append, List.all_map, Function.comp]
  · rw [InteractiveEmbed.sendTrace, ← List.cons_append, List.getLast?_concat]

namespace InteractiveEmbed

/-- The heap of embed objects, modelling JavaScript object identity: every
`new MessageEmbed(...)` appends a fresh cell; an address is the allocation
index, and no operation of the class ever writes to an existing cell. -/
abbrev Store := List MessageEmbed

/-- Read the embed object at an address. -/
def readStore (s : Store) (a : Nat) : MessageEmbed := s.getD a default

/-- The constructor's `embed` argument: a reference to an existing
`MessageEmbed` object, or a plain `MessageEmbedOptions` object. -/
inductive EmbedArg where
  | ref (addr : Nat)
  | options (o : MessageEmbedOptions)
deriving Repr, DecidableEq

/-- The field data `new MessageEmbed(embed)` copies out of the argument. -/
def argData (s : Store) : EmbedArg → MessageEmbed
  | .ref a => readStore s a
  | .options o => MessageEmbed.ofOptions o

/-- The fields of an `InteractiveEmbed` instance; `embedRef` is the address
of the object held in `this.embed`. -/
structure Instances where
  embedRef : Nat
  emojis : List String
  killed : Option MessageEmbedOptions
deriving Repr, DecidableEq

/-- The `InteractiveEmbed` constructor over the heap: `this.embed = new
MessageEmbed(embed)` allocates a fresh object copying the argument's fields. -/
def construct (s : Store) (arg : EmbedArg) (emojis : List String)
    (killed : Option MessageEmbedOptions) : Store × Instances :=
  (s ++ [argData s arg],
   { embedRef := s.length, emojis := emojis, killed := killed })

/-- A collector event delivered during the instance's lifetime. -/
inductive CollectorEvent where
  | collect (emoji userId : String)
  | endEvent
deriving Repr, DecidableEq

/-- How one collector event acts on the heap and the instance: the collect
callback allocates nothing and writes nothing; the end callback with a
kill-patch allocates the merged embed (`new MessageEmbed(data)`) and repoints
`this.embed` at it. -/
def stepHeap (s : Store) (inst : Instances) : CollectorEvent → Store × Instances
  | .collect _ _ => (s, inst)
  | .endEvent =>
      match inst.killed with
      | some k =>
          (s ++ [MessageEmbed.ofOptions
            (mergeOptions (readStore s inst.embedRef).toJSON k)],
           { inst with embedRef := s.length })
      | none => (s, inst)

/-- Run a sequence of collector events over the heap. -/
def runHeap (s : Store) (inst : Instances) :
    List CollectorEvent → Store × Instances
  | [] => (s, inst)
  | ev :: rest =>
      runHeap (stepHeap s inst ev).1 (stepHeap s inst ev).2 rest

end InteractiveEmbed

/-- `stepHeap` never shrinks the heap and never writes to an existing cell,
and it leaves the `emojis` and `killed` fields alone. -/
lemma stepHeap_preserves (s : InteractiveEmbed.Store)
    (inst : InteractiveEmbed.Instances) (ev : InteractiveEmbed.CollectorEvent) :
    s.length ≤ (InteractiveEmbed.stepHeap s inst ev).1.length ∧
    (∀ a, a < s.length →
      InteractiveEmbed.readStore (InteractiveEmbed.stepHeap s inst ev).1 a =
        InteractiveEmbed.readStore s a) ∧
    (InteractiveEmbed.stepHeap s inst ev).2.emojis = inst.emojis ∧
    (InteractiveEmbed.stepHeap s inst ev).2.killed = inst.killed := by
  cases ev with
  | collect e u => exact ⟨le_rfl, fun a _ => rfl, rfl, rfl⟩
  | endEvent =>
      cases hk : inst.killed with
      | none => simp [InteractiveEmbed.stepHeap, hk]
      | some k =>
          refine ⟨?_, fun a ha => ?_, ?_, ?_⟩
          · simp [InteractiveEmbed.stepHeap, hk]
          · simp only [InteractiveEmbed.stepHeap, hk,
              InteractiveEmbed.readStore]
            exact List.getD_append _ _ _ _ ha
          · simp [InteractiveEmbed.stepHeap, hk]
          · simp [InteractiveEmbed.stepHeap, hk]

/-- `runHeap` never shrinks the heap and never writes to an existing cell,
and it leaves the `emojis` and `killed` fields alone. -/
lemma runHeap_preserves (events : List InteractiveEmbed.CollectorEvent) :
    ∀ (s : InteractiveEmbed.Store) (inst : InteractiveEmbed.Instances),
      s.length ≤ (InteractiveEmbed.runHeap s inst events).1.length ∧
      (∀ a, a < s.length →
        InteractiveEmbed.readStore (InteractiveEmbed.runHeap s inst events).1 a =
          InteractiveEmbed.readStore s a) ∧
      (InteractiveEmbed.runHeap s inst events).2.emojis = inst.emojis ∧
      (InteractiveEmbed.runHeap s inst events).2.killed = inst.killed := by
  induction events with
  | nil => exact fun s inst => ⟨le_rfl, fun a _ => rfl, rfl, rfl⟩
  | cons ev rest ih =>
      intro s inst
      have hstep := stepHeap_preserves s inst ev
      have hrest := ih (InteractiveEmbed.stepHeap s inst ev).1
        (InteractiveEmbed.stepHeap s inst ev).2
      refine ⟨le_trans hstep.1 hrest.1, fun a ha => ?_, ?_, ?_⟩
  /- read through the run, then through the step -/
      · rw [InteractiveEmbed.runHeap]
        rw [hrest.2.1 a (lt_of_lt_of_le ha hstep.1), hstep.2.1 a ha]
      · rw [InteractiveEmbed.runHeap, hrest.2.2.1, hstep.2.2.1]
      · rw [InteractiveEmbed.runHeap, hrest.2.2.2, hstep.2.2.2]

/-- Claim C10: the `InteractiveEmbed` constructor stores a freshly allocated
copy of its embed argument (given as an object reference or as plain
options); no pre-existing object — in particular the caller's embed — is ever
written by any sequence of collector events; and the end callback with a
kill-patch changes only the instance's `embed` field, repointing it at a
fresh object holding the merged data while every old object keeps its value. -/
theorem fluor_C10_fresh_copy_no_mutation (s : InteractiveEmbed.Store)
    (arg : InteractiveEmbed.EmbedArg) (emojis : List String)
    (killed : Option MessageEmbedOptions)
    (events : List InteractiveEmbed.CollectorEvent) (a : Nat)
    (s2 : InteractiveEmbed.Store) (inst : InteractiveEmbed.Instances)
    (k : MessageEmbedOptions) (ha : a < s.length)
    (hk : inst.killed = some k) :
    (InteractiveEmbed.construct s arg emojis killed).2.embedRef = s.length ∧
    InteractiveEmbed.readStore
        (InteractiveEmbed.construct s arg emojis killed).1
        (InteractiveEmbed.construct s arg emojis killed).2.embedRef =
      InteractiveEmbed.argData s arg ∧
    InteractiveEmbed.readStore
        (InteractiveEmbed.runHeap
          (InteractiveEmbed.construct s arg emojis killed).1
          (InteractiveEmbed.construct s arg emojis killed).2 events).1 a =
      InteractiveEmbed.readStore s a ∧
    (InteractiveEmbed.stepHeap s2 inst .endEvent).2 =
      { inst with embedRef := s2.length } ∧
    InteractiveEmbed.readStore
        (InteractiveEmbed.stepHeap s2 inst .endEvent).1 s2.length =
      MessageEmbed.ofOptions
        (mergeOptions (InteractiveEmbed.readStore s2 inst.embedRef).toJSON k) ∧
    ∀ b, b < s2.length →
      InteractiveEmbed.readStore
          (InteractiveEmbed.stepHeap s2 inst .endEvent).1 b =
        InteractiveEmbed.readStore s2 b := by
  refine ⟨rfl, ?_, ?_, ?_, ?_, fun b hb => ?_⟩
  · simp only [InteractiveEmbed.construct, InteractiveEmbed.readStore]
    rw [List.getD_append_right _ _ _ _ le_rfl]
    simp
  · have hrun := runHeap_preserves events
      (InteractiveEmbed.construct s arg emojis killed).1
      (InteractiveEmbed.construct s arg emojis killed).2
    have hlt : a < (InteractiveEmbed.construct s arg emojis killed).1.length := by
      simp only [InteractiveEmbed.construct, List.length_append]
      omega
    rw [hrun.2.1 a hlt]
    simp only [InteractiveEmbed.construct, InteractiveEmbed.readStore]
    exact List.getD_append _ _ _ _ ha
  · simp [InteractiveEmbed.stepHeap, hk]
  · simp only [InteractiveEmbed.stepHeap, hk, InteractiveEmbed.readStore]
    rw [List.getD_append_right _ _ _ _ le_rfl]
    simp
  · simp only [InteractiveEmbed.stepHeap, hk, InteractiveEmbed.readStore]
    exact List.getD_append _ _ _ _ hb

/-- Witness for C10: a one-object heap holding the caller's embed, a
constructor call referencing it, a collect followed by the end event, and a
concrete instance carrying a kill-patch. -/
theorem fluor_C10_fresh_copy_no_mutation_witness :
    (0 : Nat) < ([sampleEmbedB] : InteractiveEmbed.Store).length ∧
    (⟨0, ["✅"], some sampleKill⟩ : InteractiveEmbed.Instances).killed =
      some sampleKill ∧
    ((InteractiveEmbed.construct [sampleEmbedB] (.ref 0) ["✅"]
        (some sampleKill)).2.embedRef =
      ([sampleEmbedB] : InteractiveEmbed.Store).length ∧
    InteractiveEmbed.readStore
        (InteractiveEmbed.construct [sampleEmbedB] (.ref 0) ["✅"]
          (some sampleKill)).1
        (InteractiveEmbed.construct [sampleEmbedB] (.ref 0) ["✅"]
          (some sampleKill)).2.embedRef =
      InteractiveEmbed.argData [sampleEmbedB] (.ref 0) ∧
    InteractiveEmbed.readStore
        (InteractiveEmbed.runHeap
          (InteractiveEmbed.construct [sampleEmbedB] (.ref 0) ["✅"]
            (some sampleKill)).1
          (InteractiveEmbed.construct [sampleEmbedB] (.ref 0) ["✅"]
            (some sampleKill)).2
          [.collect "✅" "u", .endEvent]).1 0 =
      InteractiveEmbed.readStore [sampleEmbedB] 0 ∧
    (InteractiveEmbed.stepHeap [sampleEmbedB]
        ⟨0, ["✅"], some sampleKill⟩ .endEvent).2 =
      { (⟨0, ["✅"], some sampleKill⟩ : InteractiveEmbed.Instances) with
        embedRef := ([sampleEmbedB] : InteractiveEmbed.Store).length } ∧
    InteractiveEmbed.readStore
        (InteractiveEmbed.stepHeap [sampleEmbedB]
          ⟨0, ["✅"], some sampleKill⟩ .endEvent).1
        ([sampleEmbedB] : InteractiveEmbed.Store).length =
      MessageEmbed.ofOptions
        (mergeOptions (InteractiveEmbed.readStore [sampleEmbedB] 0).toJSON
          sampleKill) ∧
    ∀ b, b < ([sampleEmbedB] : InteractiveEmbed.Store).length →
      InteractiveEmbed.readStore
          (InteractiveEmbed.stepHeap [sampleEmbedB]
            ⟨0, ["✅"], some sampleKill⟩ .endEvent).1 b =
        InteractiveEmbed.readStore [sampleEmbedB] b) :=
  ⟨by decide, rfl,
    fluor_C10_fresh_copy_no_mutation [sampleEmbedB] (.ref 0) ["✅"]
      (some sampleKill) [.collect "✅" "u", .endEvent] 0 [sampleEmbedB]
      ⟨0, ["✅"], some sampleKill⟩ sampleKill (by decide) rfl⟩
